import Mathlib

/-!
Shallow embedding of the two API-client modules of DeepDock-AI
(`src/utils/pubchemUtils.ts` and `src/utils/pdbUtils.ts`).

The network is modelled as an oracle passed to each function: for endpoints
whose body is consumed as text the oracle maps the request URL to a
`TextOutcome`; for JSON endpoints it maps the URL (or, for the POST search
endpoint, the structured query body) to a `JsonOutcome` whose payload is the
already-parsed JSON, `none` standing for a body on which JSON parsing throws.
Every function also returns the list of requests it issued, in order, so that
call-count and URL-shape properties can be stated.

JavaScript value semantics is modelled explicitly: `undefined`/missing is
`Option.none`; the truthiness-based `x || d` idiom is `jsOrNum` / `jsOrStr`
(a present `0` or `""` is falsy and also triggers the default); numbers are
`Int` (no arithmetic is ever performed on them, they are carried through);
strings are ASCII-scoped, with `Char.toUpper` modelling `toUpperCase`.
-/

namespace DeepDock

/-- Outcome of a request whose body is consumed as text: either a transport
error (the promise rejects) or a response with an HTTP ok-flag and body. -/
inductive TextOutcome where
  | err : TextOutcome
  | resp (ok : Bool) (body : String) : TextOutcome
deriving DecidableEq, Repr

/-- Outcome of a request whose body is consumed as JSON: a transport error, or
a response with an ok-flag and, when `ok`, the parsed payload (`none` models a
body on which `response.json()` throws). -/
inductive JsonOutcome (α : Type) where
  | err : JsonOutcome α
  | resp (ok : Bool) (payload : Option α) : JsonOutcome α
deriving DecidableEq, Repr

/-- JavaScript `x || d` on an optional number: a missing value, and a present
falsy value (`0`), both yield the default. -/
def jsOrNum (x : Option Int) (d : Int) : Int :=
  match x with
  | some v => if v = 0 then d else v
  | none => d

/-- JavaScript `x || d` on an optional string: a missing value, and a present
falsy value (`""`), both yield the default. -/
def jsOrStr (x : Option String) (d : String) : String :=
  match x with
  | some v => if v = "" then d else v
  | none => d

/-- JavaScript `x || undefined` on an optional string: a present `""` is
collapsed to `undefined`. -/
def jsOrUndefStr (x : Option String) : Option String :=
  match x with
  | some v => if v = "" then none else some v
  | none => none

/-- Whitespace as matched by the JavaScript `\s` character class, restricted
to the ASCII range of this embedding. -/
def jsWs (c : Char) : Bool :=
  c = ' ' || c = '\t' || c = '\n' || c = '\r' || c = '\x0b' || c = '\x0c'

/-- Model of `String.prototype.trim`: drop leading and trailing whitespace. -/
def jsTrim (s : String) : String :=
  ⟨((s.data.dropWhile jsWs).reverse.dropWhile jsWs).reverse⟩

/-- Model of `.replace(/\s+/g, '')`: delete every whitespace character. -/
def jsRemoveWs (s : String) : String :=
  ⟨s.data.filter (fun c => !(jsWs c))⟩

/-- Model of `String.prototype.toUpperCase`, ASCII-scoped: uppercase each
character with `Char.toUpper`. -/
def jsToUpper (s : String) : String :=
  ⟨s.data.map Char.toUpper⟩

/-- Containment of `pat` as a contiguous run in a character list, modelling
JavaScript `String.prototype.includes`. -/
def containsSeq (pat : List Char) : List Char → Bool
  | [] => pat.isEmpty
  | c :: rest => pat.isPrefixOf (c :: rest) || containsSeq pat rest

/-! ## PubChem client (`src/utils/pubchemUtils.ts`) -/

/-- Requests issued by the PubChem client, tagged by endpoint. -/
inductive PCRequest where
  | cidLookup (url : String) : PCRequest
  | propsLookup (url : String) : PCRequest
  | sdfLookup (url : String) : PCRequest
  | descLookup (url : String) : PCRequest
deriving DecidableEq, Repr

/-- The `PubChemProperties` record of the source (plus the extra fields the
source also writes into the returned object literal). -/
structure PubChemProperties where
  cid : String
  molecularWeight : Int
  molecularFormula : String
  canonicalSmiles : String
  isomericSmiles : String
  logP : Option Int
  topologicalPolarSurfaceArea : Option Int
  hBondDonor : Option Int
  hBondAcceptor : Option Int
  rotatableBondCount : Option Int
  complexity : Option Int
  xLogP3 : Option Int
  exactMass : Option Int
  monoisotopicMass : Option Int
  iupacName : Option String
  inchi : Option String
  inchiKey : Option String
deriving DecidableEq, Repr

/-- The `PubChemRecord` record of the source. -/
structure PubChemRecord where
  properties : PubChemProperties
  description : Option String
  synonyms : Option (List String)
deriving DecidableEq, Repr

/-- Payload shape read by `fetchPubChemCID`: `data.IdentifierList?.CID?.[0]`. -/
structure CidList where
  CID : Option (List Int)
deriving DecidableEq, Repr

/-- Top level of the CID-lookup payload. -/
structure CidPayload where
  IdentifierList : Option CidList
deriving DecidableEq, Repr

/-- Property object read by `fetchPubChemProperties` from
`data.PropertyTable?.Properties?.[0]`. -/
structure PropsObj where
  MolecularWeight : Option Int
  MolecularFormula : Option String
  CanonicalSMILES : Option String
  IsomericSMILES : Option String
  LogP : Option Int
  TopologicalPolarSurfaceArea : Option Int
  HydrogenBondDonorCount : Option Int
  HydrogenBondAcceptorCount : Option Int
  RotatableBondCount : Option Int
  Complexity : Option Int
  XLogP3 : Option Int
  ExactMass : Option Int
  MonoisotopicMass : Option Int
  IUPAC_Name : Option String
  InChI : Option String
  InChIKey : Option String
deriving DecidableEq, Repr

/-- Middle level of the batch-property payload. -/
structure PropsTable where
  Properties : Option (List PropsObj)
deriving DecidableEq, Repr

/-- Top level of the batch-property payload. -/
structure PropsPayload where
  PropertyTable : Option PropsTable
deriving DecidableEq, Repr

/-- Description entry read by `fetchPubChemDescription`. -/
structure InfoEntry where
  Description : Option String
deriving DecidableEq, Repr

/-- Middle level of the description payload. -/
structure InfoList where
  Information : Option (List InfoEntry)
deriving DecidableEq, Repr

/-- Top level of the description payload. -/
structure DescPayload where
  InformationList : Option InfoList
deriving DecidableEq, Repr

/-- URL of the CID lookup (URL-escaping of the notation elided; the embedding
is ASCII-scoped and no claim depends on the escaping). -/
def cidUrl (normalizedSmiles : String) : String :=
  "https://pubchem.ncbi.nlm.nih.gov/rest/pug/compound/smiles/" ++
    normalizedSmiles ++ "/cids/JSON"

/-- The fixed property-name list of `fetchPubChemProperties`, already joined
with commas as the source does with `properties.join(',')`. -/
def propertyListJoined : String :=
  "MolecularWeight,MolecularFormula,CanonicalSMILES,IsomericSMILES,LogP," ++
  "TopologicalPolarSurfaceArea,HydrogenBondDonorCount,HydrogenBondAcceptorCount," ++
  "RotatableBondCount,Complexity,XLogP3,ExactMass,MonoisotopicMass," ++
  "IUPAC_Name,InChI,InChIKey"

/-- URL of the batch property lookup. -/
def propsUrl (cid : String) : String :=
  "https://pubchem.ncbi.nlm.nih.gov/rest/pug/compound/cid/" ++ cid ++
    "/property/" ++ propertyListJoined ++ "/JSON"

/-- URL of the 3D-structure (SDF) download. -/
def sdfUrl (cid : String) : String :=
  "https://pubchem.ncbi.nlm.nih.gov/rest/pug/compound/cid/" ++ cid ++
    "/record/SDF/?record_type=3d&response_type=save&response_basename=Structure3D"

/-- URL of the description lookup. -/
def descUrl (cid : String) : String :=
  "https://pubchem.ncbi.nlm.nih.gov/rest/pug/compound/cid/" ++ cid ++
    "/description/JSON"

/-- Embedding of `fetchPubChemCID`: normalize the notation
(`smiles.trim().replace(/\s+/g, '')`), issue the lookup, read
`data.IdentifierList?.CID?.[0]`, and return `cid ? cid.toString() : null`
(a CID of `0` is falsy and yields `null`). Every failure is caught and
becomes `none`. -/
def fetchPubChemCID (net : String → JsonOutcome CidPayload) (smiles : String) :
    Option String × List PCRequest :=
  let normalizedSmiles := jsRemoveWs (jsTrim smiles)
  let url := cidUrl normalizedSmiles
  let result : Option String :=
    match net url with
    | .err => none
    | .resp false _ => none
    | .resp true none => none
    | .resp true (some data) =>
      match (data.IdentifierList.bind CidList.CID).bind List.head? with
      | some v => if v = 0 then none else some (toString v)
      | none => none
  (result, [.cidLookup url])

/-- Construction of the returned record in `fetchPubChemProperties`: the four
required fields use `props.X || default` (with `canonicalSmiles` and
`isomericSmiles` defaulting to the input `smiles`), the optional fields are
passed through unchanged. -/
def mkPubChemProperties (cid smiles : String) (props : PropsObj) : PubChemProperties :=
  { cid := cid
  , molecularWeight := jsOrNum props.MolecularWeight 0
  , molecularFormula := jsOrStr props.MolecularFormula ""
  , canonicalSmiles := jsOrStr props.CanonicalSMILES smiles
  , isomericSmiles := jsOrStr props.IsomericSMILES smiles
  , logP := props.LogP
  , topologicalPolarSurfaceArea := props.TopologicalPolarSurfaceArea
  , hBondDonor := props.HydrogenBondDonorCount
  , hBondAcceptor := props.HydrogenBondAcceptorCount
  , rotatableBondCount := props.RotatableBondCount
  , complexity := props.Complexity
  , xLogP3 := props.XLogP3
  , exactMass := props.ExactMass
  , monoisotopicMass := props.MonoisotopicMass
  , iupacName := props.IUPAC_Name
  , inchi := props.InChI
  , inchiKey := props.InChIKey }

/-- Embedding of `fetchPubChemProperties`: resolve the CID (short-circuit to
`none` when that fails), issue the single batch property request, read
`data.PropertyTable?.Properties?.[0]`, and build the record when present. -/
def fetchPubChemProperties (netCid : String → JsonOutcome CidPayload)
    (netProps : String → JsonOutcome PropsPayload) (smiles : String) :
    Option PubChemProperties × List PCRequest :=
  match fetchPubChemCID netCid smiles with
  | (none, t) => (none, t)
  | (some cid, t) =>
    let url := propsUrl cid
    let trace := t ++ [.propsLookup url]
    let result : Option PubChemProperties :=
      match netProps url with
      | .err => none
      | .resp false _ => none
      | .resp true none => none
      | .resp true (some data) =>
        match (data.PropertyTable.bind PropsTable.Properties).bind List.head? with
        | some props => some (mkPubChemProperties cid smiles props)
        | none => none
    (result, trace)

/-- Embedding of `fetchPubChem3DStructure`: on an ok response keep the body
only when it is truthy, non-empty and free of the `"Status"` marker. -/
def fetchPubChem3DStructure (net : String → TextOutcome) (cid : String) :
    Option String × List PCRequest :=
  let url := sdfUrl cid
  let result : Option String :=
    match net url with
    | .err => none
    | .resp false _ => none
    | .resp true body =>
      if body ≠ "" ∧ 0 < body.length ∧ containsSeq "Status".data body.data = false
      then some body
      else none
  (result, [.sdfLookup url])

/-- Embedding of `fetchPubChemDescription`: read
`data.InformationList?.Information?.[0]?.Description` and return
`description || null`. -/
def fetchPubChemDescription (net : String → JsonOutcome DescPayload) (cid : String) :
    Option String × List PCRequest :=
  let url := descUrl cid
  let result : Option String :=
    match net url with
    | .err => none
    | .resp false _ => none
    | .resp true none => none
    | .resp true (some data) =>
      jsOrUndefStr (((data.InformationList.bind InfoList.Information).bind
        List.head?).bind InfoEntry.Description)
  (result, [.descLookup url])

/-- Embedding of `getPubChem2DImageURL`: pure URL construction. -/
def getPubChem2DImageURL (cid : String) (width : Nat := 300) (height : Nat := 300) :
    String :=
  "https://pubchem.ncbi.nlm.nih.gov/image/imagefly.cgi?cid=" ++ cid ++
    "&width=" ++ toString width ++ "&height=" ++ toString height

/-- Embedding of `fetchCompletePubChemRecord`: fetch the properties,
short-circuit to `none` when absent, otherwise fetch the description and
assemble the record with `synonyms` always left unset. -/
def fetchCompletePubChemRecord (netCid : String → JsonOutcome CidPayload)
    (netProps : String → JsonOutcome PropsPayload)
    (netDesc : String → JsonOutcome DescPayload) (smiles : String) :
    Option PubChemRecord × List PCRequest :=
  match fetchPubChemProperties netCid netProps smiles with
  | (none, t) => (none, t)
  | (some props, t) =>
    match fetchPubChemDescription netDesc props.cid with
    | (desc, t2) =>
      (some { properties := props
            , description := jsOrUndefStr desc
            , synonyms := none }, t ++ t2)

/-! ## PDB client (`src/utils/pdbUtils.ts`) -/

/-- The `PDBInfo` record of the source. -/
structure PDBInfo where
  id : String
  title : String
  description : Option String
  method : Option String
  resolution : Option String
  depositionDate : Option String
  releaseDate : Option String
  chainIds : Option (List String)
  experimentalTechnique : Option String
deriving DecidableEq, Repr

/-- Nested `struct` object of the entry payload. -/
structure StructField where
  title : Option String
  pdbx_descriptor : Option String
deriving DecidableEq, Repr

/-- Entry of the `exptl` array of the entry payload. -/
structure ExptlEntry where
  method : Option String
deriving DecidableEq, Repr

/-- Nested `rcsb_entry_info` object of the entry payload; resolutions are
carried as numbers and stringified with `toString`. -/
structure EntryInfoField where
  resolution_combined : Option (List Int)
deriving DecidableEq, Repr

/-- Nested `rcsb_accession_info` object of the entry payload. -/
structure AccessionInfo where
  deposit_date : Option String
  initial_release_date : Option String
deriving DecidableEq, Repr

/-- Nested `rcsb_entry_container_identifiers` object of the entry payload. -/
structure ContainerIds where
  polymer_entity_ids : Option (List String)
deriving DecidableEq, Repr

/-- Top level of the entry (summary metadata) payload. -/
structure EntryPayload where
  struct : Option StructField
  exptl : Option (List ExptlEntry)
  rcsb_entry_info : Option EntryInfoField
  rcsb_accession_info : Option AccessionInfo
  rcsb_entry_container_identifiers : Option ContainerIds
deriving DecidableEq, Repr

/-- Molecule type of the sequence search. -/
inductive SequenceType where
  | protein : SequenceType
  | dna : SequenceType
  | rna : SequenceType
deriving DecidableEq, Repr

/-- Variable parts of the JSON query body built by `searchPDBBySequence`
(the fixed request options — return type `polymer_entity`, experimental
content, score-descending sort — are constants in the source and elided). -/
structure SearchQuery where
  evalue_cutoff : ℚ
  identity_cutoff : ℚ
  sequence_type : SequenceType
  value : String
  start : Nat
  rows : Nat
deriving DecidableEq, Repr

/-- Options object of `searchPDBBySequence`; a missing property triggers the
destructuring default. -/
structure SearchOptions where
  evalue_cutoff : Option ℚ := none
  identity_cutoff : Option ℚ := none
  sequence_type : Option SequenceType := none
deriving DecidableEq, Repr

/-- Element of the search `result_set`: the two properties the source reads
from each (otherwise untyped) entry. -/
structure SearchHit where
  identifier : String
  score : Option Int
deriving DecidableEq, Repr

/-- Top level of the search payload. -/
structure SearchPayload where
  result_set : Option (List SearchHit)
deriving DecidableEq, Repr

/-- Payload of the chain-sequence endpoint. -/
structure ChainSeqPayload where
  sequences : Option (List String)
deriving DecidableEq, Repr

/-- Requests issued by the PDB client, tagged by endpoint. The search request
is keyed by its structured POST body, the others by URL. -/
inductive PDBRequest where
  | fileReq (url : String) : PDBRequest
  | entryReq (url : String) : PDBRequest
  | searchReq (query : SearchQuery) : PDBRequest
  | entityReq (url : String) : PDBRequest
  | chainReq (url : String) : PDBRequest
deriving DecidableEq, Repr

/-- The `pdbId.toUpperCase().trim()` normalization used by the PDB client. -/
def normalizePdbId (pdbId : String) : String :=
  jsTrim (jsToUpper pdbId)

/-- URL of the raw structure-file download. -/
def pdbFileUrl (id : String) : String :=
  "https://files.rcsb.org/download/" ++ id ++ ".pdb"

/-- URL of the entry (summary metadata) endpoint. -/
def entryUrl (id : String) : String :=
  "https://data.rcsb.org/rest/v1/core/entry/" ++ id

/-- URL of the polymer-entity detail endpoint. -/
def polymerEntityUrl (entityId : String) : String :=
  "https://data.rcsb.org/rest/v1/polymer_entity/" ++ entityId

/-- URL of the chain-sequence endpoint; the chain segment is
`${chainId || 1}`, so a missing or empty chain id becomes `"1"`. -/
def chainSeqUrl (id chainSegment : String) : String :=
  "https://data.rcsb.org/rest/v1/core/polymer_entity/" ++ id ++ "/" ++
    chainSegment ++ "/sequence"

/-- Embedding of `fetchPDBStructure`: normalize the id, download the file,
and keep the body only when it is truthy and longer than 100 characters. -/
def fetchPDBStructure (net : String → TextOutcome) (pdbId : String) :
    Option String × List PDBRequest :=
  let normalizedId := normalizePdbId pdbId
  let url := pdbFileUrl normalizedId
  let result : Option String :=
    match net url with
    | .err => none
    | .resp false _ => none
    | .resp true body =>
      if body ≠ "" ∧ 100 < body.length then some body else none
  (result, [.fileReq url])

/-- Field-by-field construction of the `PDBInfo` record in `fetchPDBInfo`,
with each source fallback (`|| 'Unknown'`, `|| undefined`, `|| []`). -/
def mkPDBInfo (normalizedId : String) (data : EntryPayload) : PDBInfo :=
  { id := normalizedId
  , title := jsOrStr (data.struct.bind StructField.title) "Unknown"
  , description := jsOrUndefStr (data.struct.bind StructField.pdbx_descriptor)
  , method := jsOrUndefStr ((data.exptl.bind List.head?).bind ExptlEntry.method)
  , resolution := jsOrUndefStr
      (((data.rcsb_entry_info.bind EntryInfoField.resolution_combined).bind
        List.head?).map toString)
  , depositionDate := jsOrUndefStr (data.rcsb_accession_info.bind AccessionInfo.deposit_date)
  , releaseDate := jsOrUndefStr
      (data.rcsb_accession_info.bind AccessionInfo.initial_release_date)
  , chainIds := some
      ((data.rcsb_entry_container_identifiers.bind ContainerIds.polymer_entity_ids).getD [])
  , experimentalTechnique := jsOrUndefStr
      ((data.exptl.bind List.head?).bind ExptlEntry.method) }

/-- Embedding of `fetchPDBInfo`: normalize the id, request the summary
metadata, and on an ok parseable response build the `PDBInfo` record. -/
def fetchPDBInfo (net : String → JsonOutcome EntryPayload) (pdbId : String) :
    Option PDBInfo × List PDBRequest :=
  let normalizedId := normalizePdbId pdbId
  let url := entryUrl normalizedId
  let result : Option PDBInfo :=
    match net url with
    | .err => none
    | .resp false _ => none
    | .resp true none => none
    | .resp true (some data) => some (mkPDBInfo normalizedId data)
  (result, [.entryReq url])

/-- Scanner for the tail of a `/^>.*\n/` match: after the `>` the regex
consumes non-line-terminator characters and then requires a literal newline;
a carriage return or the end of input makes the match fail. Returns the rest
of the input after the consumed newline when the match succeeds. -/
def scanHeaderRest : List Char → Option (List Char)
  | [] => none
  | c :: rest =>
    if c = '\n' then some rest
    else if c = '\r' then none
    else scanHeaderRest rest

/-- Worker of the global replace `/^>.*\n/gm → ''`: walk the characters with
a flag telling whether the current position is a line start (start of input
or just after a line terminator); at a line start beginning with `>` try to
consume a full newline-terminated header line. Failed attempts keep the `>`
and continue; matches never overlap, exactly as the JavaScript global
replace scans. The `fuel` argument only bounds the recursion for structural
termination; every step strictly shrinks the character list, so any fuel
beyond the list length never runs out. -/
def stripHeadersAux (fuel : Nat) (l : List Char) (atStart : Bool) : List Char :=
  match fuel, l with
  | 0, rest => rest
  | _ + 1, [] => []
  | fuel + 1, c :: rest =>
    if atStart ∧ c = '>' then
      match scanHeaderRest rest with
      | some rest2 => stripHeadersAux fuel rest2 true
      | none => c :: stripHeadersAux fuel rest false
    else
      c :: stripHeadersAux fuel rest (c = '\n' || c = '\r')

/-- Model of `sequence.replace(/^>.*\n/gm, '')`. -/
def stripHeaderLines (s : String) : String :=
  ⟨stripHeadersAux (s.data.length + 1) s.data true⟩

/-- The sequence cleaning of `searchPDBBySequence`: strip newline-terminated
FASTA header lines, then delete all whitespace. -/
def cleanSequence (s : String) : String :=
  jsRemoveWs (stripHeaderLines s)

/-- The query body built by `searchPDBBySequence` for a given input sequence
and options (destructuring defaults: e-value 0.01, identity 30, protein). -/
def mkSearchQuery (sequence : String) (options : SearchOptions) : SearchQuery :=
  { evalue_cutoff := options.evalue_cutoff.getD (1 / 100)
  , identity_cutoff := options.identity_cutoff.getD 30
  , sequence_type := options.sequence_type.getD .protein
  , value := cleanSequence sequence
  , start := 0
  , rows := 100 }

/-- Embedding of `searchPDBBySequence`: build the query, post it, and return
`data.result_set || []`; every failure becomes the empty list. -/
def searchPDBBySequence (net : SearchQuery → JsonOutcome SearchPayload)
    (sequence : String) (options : SearchOptions) :
    List SearchHit × List PDBRequest :=
  let query := mkSearchQuery sequence options
  let result : List SearchHit :=
    match net query with
    | .err => []
    | .resp false _ => []
    | .resp true none => []
    | .resp true (some data) => data.result_set.getD []
  (result, [.searchReq query])

/-- Embedding of `fetchPolymerEntityDetails`: passthrough fetch of one entity
document (payload left opaque). -/
def fetchPolymerEntityDetails {α : Type} (net : String → JsonOutcome α)
    (entityId : String) : Option α × List PDBRequest :=
  let url := polymerEntityUrl entityId
  let result : Option α :=
    match net url with
    | .err => none
    | .resp false _ => none
    | .resp true none => none
    | .resp true (some data) => some data
  (result, [.entityReq url])

/-- Character class `[1-9]` of the extraction pattern (code points 49–57). -/
def isNonzeroDigit (c : Char) : Bool :=
  49 ≤ c.toNat && c.toNat ≤ 57

/-- Character class `[A-Z0-9]` of the extraction pattern (code points 65–90
and 48–57). -/
def isUpperAlnum (c : Char) : Bool :=
  (65 ≤ c.toNat && c.toNat ≤ 90) || (48 ≤ c.toNat && c.toNat ≤ 57)

/-- Leftmost match of `/[1-9][A-Z0-9]{3}/`: try every start position from the
left; a match needs four remaining characters in the two classes. -/
def findCode : List Char → Option (List Char)
  | c0 :: c1 :: c2 :: c3 :: rest =>
    if isNonzeroDigit c0 && isUpperAlnum c1 && isUpperAlnum c2 && isUpperAlnum c3
    then some [c0, c1, c2, c3]
    else findCode (c1 :: c2 :: c3 :: rest)
  | _ => none

/-- Result record of `findBestMatchPDB`. -/
structure BestMatch where
  pdbId : String
  entityId : String
  score : Int
  info : Option PDBInfo
deriving DecidableEq, Repr

/-- Relaxed cutoffs passed by `findBestMatchPDB` to the sequence search:
e-value 0.1, identity 0, molecule type protein. -/
def relaxedSearchOptions : SearchOptions :=
  { evalue_cutoff := some (1 / 10), identity_cutoff := some 0
  , sequence_type := some .protein }

/-- Embedding of `findBestMatchPDB`: search with relaxed cutoffs (e-value
0.1, identity 0, protein), take the top result, extract a structure code
from its identifier with `/([1-9][A-Z0-9]{3})/`, and when extraction
succeeds enrich the result with `fetchPDBInfo` on that code. -/
def findBestMatchPDB (netSearch : SearchQuery → JsonOutcome SearchPayload)
    (netEntry : String → JsonOutcome EntryPayload) (sequence : String) :
    Option BestMatch × List PDBRequest :=
  match searchPDBBySequence netSearch sequence relaxedSearchOptions with
  | (results, t1) =>
    match results with
    | [] => (none, t1)
    | bestMatch :: _ =>
      let entityId := bestMatch.identifier
      match findCode entityId.data with
      | none => (none, t1)
      | some codeChars =>
        let pdbId : String := ⟨codeChars⟩
        match fetchPDBInfo netEntry pdbId with
        | (info, t2) =>
          (some { pdbId := pdbId
                , entityId := entityId
                , score := jsOrNum bestMatch.score 0
                , info := info }, t1 ++ t2)

/-- Embedding of `fetchPDBChainSequence`: normalize the id, request the
sequence list for the given chain (`${chainId || 1}`), and return
`data.sequences || []`; every failure becomes the empty list. -/
def fetchPDBChainSequence (net : String → JsonOutcome ChainSeqPayload)
    (pdbId : String) (chainId : Option String) :
    List String × List PDBRequest :=
  let normalizedId := normalizePdbId pdbId
  let url := chainSeqUrl normalizedId (jsOrStr chainId "1")
  let result : List String :=
    match net url with
    | .err => []
    | .resp false _ => []
    | .resp true none => []
    | .resp true (some data) => data.sequences.getD []
  (result, [.chainReq url])

/-- Test of the anchored pattern `/^[1-9][A-Z0-9]{3}$/`: exactly four
characters, the first in `[1-9]`, the rest in `[A-Z0-9]`. -/
def matchesPDBPattern (s : String) : Bool :=
  match s.data with
  | [c0, c1, c2, c3] =>
    isNonzeroDigit c0 && isUpperAlnum c1 && isUpperAlnum c2 && isUpperAlnum c3
  | _ => false

/-- Embedding of `validatePDBId`: uppercase the input, then test the anchored
pattern. Pure and synchronous. -/
def validatePDBId (pdbId : String) : Bool :=
  matchesPDBPattern (jsToUpper pdbId)

/-! ## Spec-worded comparison definitions

These definitions follow the wording of the specification (not the source)
and exist only to be compared against the source-derived definitions above. -/

/-- Spec wording: an ASCII alphanumeric character — an upper-case letter, a
lower-case letter, or a digit. -/
def specAlnumChar (c : Char) : Bool :=
  (65 ≤ c.toNat && c.toNat ≤ 90) || (97 ≤ c.toNat && c.toNat ≤ 122) ||
    (48 ≤ c.toNat && c.toNat ≤ 57)

/-- Spec wording for `validateStructureCode`: a string consisting, case
insensitively, of a leading digit 1–9 followed by three alphanumeric
characters. -/
def specValidStructureCode (s : String) : Bool :=
  match s.data with
  | [c0, c1, c2, c3] =>
    isNonzeroDigit c0 && specAlnumChar c1 && specAlnumChar c2 && specAlnumChar c3
  | _ => false

/-- Spec wording for the code extraction in `findBestMatch`: the leftmost
4-character substring consisting of a digit 1–9 followed by three
alphanumeric characters (of either case). -/
def specFindAlnumCode : List Char → Option (List Char)
  | c0 :: c1 :: c2 :: c3 :: rest =>
    if isNonzeroDigit c0 && specAlnumChar c1 && specAlnumChar c2 && specAlnumChar c3
    then some [c0, c1, c2, c3]
    else specFindAlnumCode (c1 :: c2 :: c3 :: rest)
  | _ => none

/-- Splitting of a character list at newline separators (the last segment has
no trailing newline). -/
def splitOnNl : List Char → List (List Char)
  | [] => [[]]
  | c :: rest =>
    if c = '\n' then [] :: splitOnNl rest
    else
      match splitOnNl rest with
      | [] => [[c]]
      | l :: ls => (c :: l) :: ls

/-- Rejoining of line segments with newline separators. -/
def joinLinesNl : List (List Char) → List Char
  | [] => []
  | [l] => l
  | l :: ls => l ++ '\n' :: joinLinesNl ls

/-- Spec wording for the sequence cleaning in `searchBySequence`: strip every
line beginning with `>`, then strip all whitespace. -/
def specCleanSequence (s : String) : String :=
  jsRemoveWs ⟨joinLinesNl ((splitOnNl s.data).filter (fun l => l.head? != some '>'))⟩

/-! ## Concrete oracles for witnesses and counterexamples -/

/-- Property object with every field present except the two SMILES fields. -/
def cexPropsObj : PropsObj :=
  { MolecularWeight := some 46
  , MolecularFormula := some "C2H6O"
  , CanonicalSMILES := none
  , IsomericSMILES := none
  , LogP := none
  , TopologicalPolarSurfaceArea := none
  , HydrogenBondDonorCount := none
  , HydrogenBondAcceptorCount := none
  , RotatableBondCount := none
  , Complexity := none
  , XLogP3 := none
  , ExactMass := none
  , MonoisotopicMass := none
  , IUPAC_Name := none
  , InChI := none
  , InChIKey := none }

/-- CID oracle answering every request with CID 702. -/
def cidNet702 : String → JsonOutcome CidPayload :=
  fun _ => .resp true (some { IdentifierList := some { CID := some [702] } })

/-- Property oracle answering every request with `cexPropsObj`. -/
def propsNetNoSmiles : String → JsonOutcome PropsPayload :=
  fun _ => .resp true (some { PropertyTable := some { Properties := some [cexPropsObj] } })

/-- Property object with every field present. -/
def fullPropsObj : PropsObj :=
  { MolecularWeight := some 46
  , MolecularFormula := some "C2H6O"
  , CanonicalSMILES := some "CCO"
  , IsomericSMILES := some "CCO"
  , LogP := some 1
  , TopologicalPolarSurfaceArea := some 20
  , HydrogenBondDonorCount := some 1
  , HydrogenBondAcceptorCount := some 1
  , RotatableBondCount := some 0
  , Complexity := some 2
  , XLogP3 := some 1
  , ExactMass := some 46
  , MonoisotopicMass := some 46
  , IUPAC_Name := some "ethanol"
  , InChI := some "InChI=1S/C2H6O"
  , InChIKey := some "LFQSCWFLJHTTHZ" }

/-- Property oracle answering every request with `fullPropsObj`. -/
def propsNetFull : String → JsonOutcome PropsPayload :=
  fun _ => .resp true (some { PropertyTable := some { Properties := some [fullPropsObj] } })

/-- CID oracle whose every request fails in transport. -/
def cidNetErr : String → JsonOutcome CidPayload :=
  fun _ => .err

/-- Description oracle answering every request with a fixed description. -/
def descNetHello : String → JsonOutcome DescPayload :=
  fun _ => .resp true (some { InformationList := some { Information := some [{ Description := some "An alcohol." }] } })

/-- Text oracle answering every request with a fixed body of exactly 100
characters. -/
def textNet100 : String → TextOutcome :=
  fun _ => .resp true ⟨List.replicate 100 'A'⟩

/-- Text oracle answering every request with a fixed body of 150 characters. -/
def textNet150 : String → TextOutcome :=
  fun _ => .resp true ⟨List.replicate 150 'A'⟩

/-- Text oracle answering every request with a short plausible SDF body. -/
def textNetSdf : String → TextOutcome :=
  fun _ => .resp true "702 OpenBabel"

/-- Entry payload with every field missing. -/
def emptyEntryPayload : EntryPayload :=
  { struct := none, exptl := none, rcsb_entry_info := none
  , rcsb_accession_info := none, rcsb_entry_container_identifiers := none }

/-- Entry oracle answering every request with a payload missing every field. -/
def entryNetEmpty : String → JsonOutcome EntryPayload :=
  fun _ => .resp true (some emptyEntryPayload)

/-- Search oracle whose top (and only) hit has an upper-case identifier
containing the code `1ABC`. -/
def searchNetUpper : SearchQuery → JsonOutcome SearchPayload :=
  fun _ => .resp true (some { result_set := some [{ identifier := "1ABC_1", score := some 7 }] })

/-- Search oracle whose top (and only) hit has a lower-case identifier
`1abc_1`. -/
def searchNetLower : SearchQuery → JsonOutcome SearchPayload :=
  fun _ => .resp true (some { result_set := some [{ identifier := "1abc_1", score := some 5 }] })

/-- Search oracle answering every request with a payload whose result set is
a fixed one-element list. -/
def searchNetOneHit : SearchQuery → JsonOutcome SearchPayload :=
  fun _ => .resp true (some { result_set := some [{ identifier := "2XYZ_1", score := some 9 }] })

/-- Default (empty) options object. -/
def defaultSearchOptions : SearchOptions := {}

/-! ## Shared helper lemmas -/

/-- Reading back the code point of `Char.ofNat` at a valid code point below
the surrogate range. -/
theorem toNat_ofNat_valid (n : Nat) (h : n < 55296) : (Char.ofNat n).toNat = n := by
  have hv : Nat.isValidChar n := Or.inl h
  simp only [Char.ofNat]
  rw [dif_pos hv]
  rfl

/-- Code point of `Char.toUpper`: lower-case ASCII letters move down by 32,
all other characters are unchanged. -/
theorem toUpper_toNat (c : Char) :
    (Char.toUpper c).toNat =
      if 97 ≤ c.toNat ∧ c.toNat ≤ 122 then c.toNat - 32 else c.toNat := by
  simp only [Char.toUpper]
  split_ifs with h1
  · exact toNat_ofNat_valid _ (by omega)
  · rfl

/-- Uppercasing preserves the `[1-9]` character class. -/
theorem isNonzeroDigit_toUpper (c : Char) :
    isNonzeroDigit (Char.toUpper c) = isNonzeroDigit c := by
  have h := toUpper_toNat c
  simp only [isNonzeroDigit, h]
  split_ifs with hc
  · simp only [← Bool.decide_and]
    exact decide_eq_decide.mpr (by omega)
  · rfl

/-- A character uppercases into the `[A-Z0-9]` class exactly when it is an
ASCII alphanumeric character of either case. -/
theorem isUpperAlnum_toUpper (c : Char) :
    isUpperAlnum (Char.toUpper c) = specAlnumChar c := by
  have h := toUpper_toNat c
  simp only [isUpperAlnum, specAlnumChar, h]
  split_ifs with hc
  · simp only [← Bool.decide_and, ← Bool.decide_or]
    exact decide_eq_decide.mpr (by omega)
  · simp only [← Bool.decide_and, ← Bool.decide_or]
    exact decide_eq_decide.mpr (by omega)

/-- A non-empty string has positive length. -/
theorem length_pos_of_ne_empty (s : String) (h : s ≠ "") : 0 < s.length := by
  cases s with
  | mk l =>
    cases l with
    | nil => exact absurd rfl h
    | cons a t => exact Nat.succ_pos _

/-- Every code produced by `findCode` passes the anchored pattern test. -/
theorem findCode_matches (l : List Char) :
    ∀ code, findCode l = some code → matchesPDBPattern ⟨code⟩ = true := by
  induction l with
  | nil => intro code h; simp [findCode] at h
  | cons a t ih =>
    intro code h
    cases t with
    | nil => simp [findCode] at h
    | cons b t2 =>
      cases t2 with
      | nil => simp [findCode] at h
      | cons c2 t3 =>
        cases t3 with
        | nil => simp [findCode] at h
        | cons d t4 =>
          simp only [findCode] at h
          split_ifs at h with hc
          · cases h
            exact hc
          · exact ih code h

/-- The request trace of `fetchPubChemProperties` contains only CID-lookup
and property-lookup requests, never a description request. -/
theorem fetchPubChemProperties_trace_no_desc
    (netCid : String → JsonOutcome CidPayload)
    (netProps : String → JsonOutcome PropsPayload) (smiles : String) :
    ∀ u, PCRequest.descLookup u ∉ (fetchPubChemProperties netCid netProps smiles).snd := by
  intro u
  simp only [fetchPubChemProperties]
  rcases hC : fetchPubChemCID netCid smiles with ⟨c0, t0⟩
  have ht0 : t0 = [PCRequest.cidLookup (cidUrl (jsRemoveWs (jsTrim smiles)))] := by
    have h := congrArg Prod.snd hC
    simp only [fetchPubChemCID] at h
    exact h.symm
  cases c0 with
  | none => simp [ht0]
  | some cid => simp [ht0]

/-! ## Claim theorems -/

/-- Claim C5: `validatePDBId` returns `true` exactly for the strings that,
case-insensitively, consist of a leading digit 1–9 followed by three
alphanumeric characters, and `false` for all other strings; it is a pure
synchronous function of its input. -/
theorem validatePDBId_pattern_correct (s : String) :
    validatePDBId s = specValidStructureCode s := by
  cases s with
  | mk l =>
    cases l with
    | nil => rfl
    | cons a t0 =>
      cases t0 with
      | nil => rfl
      | cons b t1 =>
        cases t1 with
        | nil => rfl
        | cons c2 t2 =>
          cases t2 with
          | nil => rfl
          | cons d t3 =>
            cases t3 with
            | cons e t4 => rfl
            | nil =>
              show (isNonzeroDigit a.toUpper && isUpperAlnum b.toUpper &&
                  isUpperAlnum c2.toUpper && isUpperAlnum d.toUpper) =
                (isNonzeroDigit a && specAlnumChar b && specAlnumChar c2 &&
                  specAlnumChar d)
              rw [isNonzeroDigit_toUpper, isUpperAlnum_toUpper, isUpperAlnum_toUpper,
                isUpperAlnum_toUpper]

/-- Claim C2 (amended): on a success response `fetchPDBStructure` returns the
body exactly when it is longer than 100 characters (so a body of exactly 100
characters also yields absent), and on a transport error or non-success
status it returns absent. -/
theorem fetchPDBStructure_lengthGate (net : String → TextOutcome) (pdbId : String) :
    (∀ body, net (pdbFileUrl (normalizePdbId pdbId)) = .resp true body →
      (fetchPDBStructure net pdbId).fst =
        if 100 < body.length then some body else none) ∧
    (net (pdbFileUrl (normalizePdbId pdbId)) = .err →
      (fetchPDBStructure net pdbId).fst = none) ∧
    (∀ body, net (pdbFileUrl (normalizePdbId pdbId)) = .resp false body →
      (fetchPDBStructure net pdbId).fst = none) := by
  refine ⟨?_, ?_, ?_⟩
  · intro body h
    simp only [fetchPDBStructure, h]
    by_cases hlen : 100 < body.length
    · have hne : body ≠ "" := by
        intro hb
        rw [hb] at hlen
        simp [String.length] at hlen
      rw [if_pos ⟨hne, hlen⟩, if_pos hlen]
    · rw [if_neg (fun hh => hlen hh.2), if_neg hlen]
  · intro h
    simp [fetchPDBStructure, h]
  · intro body h
    simp [fetchPDBStructure, h]

set_option maxRecDepth 4000 in
/-- Witness for claim C2: a concrete success response with a 150-character
body is returned unchanged. -/
theorem fetchPDBStructure_lengthGate_witness :
    (fetchPDBStructure textNet150 "1abc").fst = some ⟨List.replicate 150 'A'⟩ := by
  have h := (fetchPDBStructure_lengthGate textNet150 "1abc").1 ⟨List.replicate 150 'A'⟩ rfl
  rw [h, if_pos (by decide)]

set_option maxRecDepth 4000 in
/-- Counterexample to claim C2 as stated: a success response whose body has
exactly 100 characters is not shorter than 100 characters, yet the function
returns absent. -/
theorem fetchPDBStructure_hundred_cex :
    (fetchPDBStructure textNet100 "1ABC").fst = none ∧
      ¬ ((String.mk (List.replicate 100 'A')).length < 100) := by
  constructor
  · decide
  · decide

/-- Claim C7: `fetchPubChem3DStructure` returns the body unchanged exactly
when the response is a success whose body is non-empty and does not contain
the substring `"Status"`; in every other case (empty body, marker body,
non-success status, transport error) it returns absent. -/
theorem fetchPubChem3DStructure_marker_gate (net : String → TextOutcome)
    (cid : String) (x : String) :
    (fetchPubChem3DStructure net cid).fst = some x ↔
      (net (sdfUrl cid) = .resp true x ∧ x ≠ "" ∧
        containsSeq "Status".data x.data = false) := by
  cases hn : net (sdfUrl cid) with
  | err =>
    have hfst : (fetchPubChem3DStructure net cid).fst = none := by
      simp only [fetchPubChem3DStructure]
      rw [hn]
    rw [hfst]
    simp
  | resp ok body =>
    cases ok with
    | false =>
      have hfst : (fetchPubChem3DStructure net cid).fst = none := by
        simp only [fetchPubChem3DStructure]
        rw [hn]
      rw [hfst]
      simp
    | true =>
      have hfst : (fetchPubChem3DStructure net cid).fst =
          if body ≠ "" ∧ 0 < body.length ∧
              containsSeq "Status".data body.data = false
          then some body else none := by
        simp only [fetchPubChem3DStructure]
        rw [hn]
      rw [hfst]
      split_ifs with hcond
      · constructor
        · intro h
          cases h
          exact ⟨rfl, hcond.1, hcond.2.2⟩
        · intro h
          obtain ⟨hbx, h1, h2⟩ := h
          cases hbx
          rfl
      · constructor
        · intro h
          cases h
        · intro h
          obtain ⟨hbx, hne, hst⟩ := h
          cases hbx
          exact absurd ⟨hne, length_pos_of_ne_empty x hne, hst⟩ hcond

/-- Witness for claim C7: a concrete ordinary SDF body is returned
unchanged. -/
theorem fetchPubChem3DStructure_marker_gate_witness :
    (fetchPubChem3DStructure textNetSdf "702").fst = some "702 OpenBabel" := by
  rw [fetchPubChem3DStructure_marker_gate]
  exact ⟨rfl, by decide, by decide⟩

/-- Claim C10: in every non-absent record returned by `fetchPDBInfo`, the
`method` field equals the `experimentalTechnique` field — both are extracted
from the first experiment entry's method. -/
theorem fetchPDBInfo_method_eq_technique (net : String → JsonOutcome EntryPayload)
    (pdbId : String) (r : PDBInfo) (t : List PDBRequest)
    (h : fetchPDBInfo net pdbId = (some r, t)) :
    r.method = r.experimentalTechnique := by
  have hf := congrArg Prod.fst h
  cases hn : net (entryUrl (normalizePdbId pdbId)) with
  | err =>
    have hfst : (fetchPDBInfo net pdbId).fst = none := by
      simp only [fetchPDBInfo]
      rw [hn]
    rw [hfst] at hf
    cases hf
  | resp ok payload =>
    cases ok with
    | false =>
      have hfst : (fetchPDBInfo net pdbId).fst = none := by
        simp only [fetchPDBInfo]
        rw [hn]
      rw [hfst] at hf
      cases hf
    | true =>
      cases payload with
      | none =>
        have hfst : (fetchPDBInfo net pdbId).fst = none := by
          simp only [fetchPDBInfo]
          rw [hn]
        rw [hfst] at hf
        cases hf
      | some data =>
        have hfst : (fetchPDBInfo net pdbId).fst =
            some (mkPDBInfo (normalizePdbId pdbId) data) := by
          simp only [fetchPDBInfo]
          rw [hn]
        rw [hfst] at hf
        cases hf
        rfl

/-- Witness for claim C10: a concrete response with no experiment data
yields a record whose two method fields agree. -/
theorem fetchPDBInfo_method_eq_technique_witness :
    ∃ r, (fetchPDBInfo entryNetEmpty "1abc").fst = some r ∧
      r.method = r.experimentalTechnique := by
  refine ⟨mkPDBInfo (normalizePdbId "1abc") emptyEntryPayload, rfl, ?_⟩
  exact fetchPDBInfo_method_eq_technique entryNetEmpty "1abc" _ _ rfl

/-- Claim C1 (amended): when identifier resolution succeeds and the batch
property response carries a property object, `fetchPubChemProperties` returns
a record in which a missing `molecularWeight` defaults to zero and a missing
`molecularFormula` defaults to the empty string, but missing
`canonicalSmiles` / `isomericSmiles` default to the input SMILES notation
(not the empty string), and every optional field is passed through exactly
as present or absent in the response. -/
theorem fetchPubChemProperties_defaults
    (netCid : String → JsonOutcome CidPayload)
    (netProps : String → JsonOutcome PropsPayload) (smiles cid : String)
    (data : PropsPayload) (props : PropsObj)
    (h1 : (fetchPubChemCID netCid smiles).fst = some cid)
    (h2 : netProps (propsUrl cid) = .resp true (some data))
    (h3 : (data.PropertyTable.bind PropsTable.Properties).bind List.head? = some props) :
    ∃ r, (fetchPubChemProperties netCid netProps smiles).fst = some r ∧
      r.cid = cid ∧
      (props.MolecularWeight = none → r.molecularWeight = 0) ∧
      (props.MolecularFormula = none → r.molecularFormula = "") ∧
      (props.CanonicalSMILES = none → r.canonicalSmiles = smiles) ∧
      (props.IsomericSMILES = none → r.isomericSmiles = smiles) ∧
      r.logP = props.LogP ∧
      r.topologicalPolarSurfaceArea = props.TopologicalPolarSurfaceArea ∧
      r.hBondDonor = props.HydrogenBondDonorCount ∧
      r.hBondAcceptor = props.HydrogenBondAcceptorCount ∧
      r.rotatableBondCount = props.RotatableBondCount ∧
      r.complexity = props.Complexity ∧
      r.xLogP3 = props.XLogP3 := by
  refine ⟨mkPubChemProperties cid smiles props, ?_, rfl, ?_, ?_, ?_, ?_,
    rfl, rfl, rfl, rfl, rfl, rfl, rfl⟩
  · rcases hC : fetchPubChemCID netCid smiles with ⟨c0, t0⟩
    rw [hC] at h1
    have hc0 : c0 = some cid := h1
    subst hc0
    simp only [fetchPubChemProperties, hC, h2, h3]
  · intro hm
    simp [mkPubChemProperties, jsOrNum, hm]
  · intro hm
    simp [mkPubChemProperties, jsOrStr, hm]
  · intro hm
    simp [mkPubChemProperties, jsOrStr, hm]
  · intro hm
    simp [mkPubChemProperties, jsOrStr, hm]

/-- Witness for claim C1: a concrete run in which the response lacks the two
SMILES fields; they fall back to the input notation, and a missing optional
field stays unset. -/
theorem fetchPubChemProperties_defaults_witness :
    ∃ r, (fetchPubChemProperties cidNet702 propsNetNoSmiles "CCO").fst = some r ∧
      r.canonicalSmiles = "CCO" ∧ r.logP = none := by
  obtain ⟨r, hr, -, -, -, hcs, -, hlogP, -⟩ :=
    fetchPubChemProperties_defaults cidNet702 propsNetNoSmiles "CCO" "702"
      { PropertyTable := some { Properties := some [cexPropsObj] } } cexPropsObj
      (by decide) rfl rfl
  exact ⟨r, hr, hcs rfl, hlogP.trans rfl⟩

/-- Counterexample to claim C1 as stated: with `CanonicalSMILES` missing from
the response, the returned `canonicalSmiles` is the input notation `"CCO"`,
not the empty string the claim prescribes. -/
theorem fetchPubChemProperties_smilesFallback_cex :
    ((fetchPubChemProperties cidNet702 propsNetNoSmiles "CCO").fst).map
        PubChemProperties.canonicalSmiles = some "CCO" ∧
      cexPropsObj.CanonicalSMILES = none ∧ ("CCO" : String) ≠ "" := by
  refine ⟨by decide, rfl, by decide⟩

/-- Claim C3 (amended): on a success response with parseable JSON,
`fetchPDBInfo` returns a record (never absent) in which a missing title
defaults to `"Unknown"` and the other fields default to absent when missing
— except `chainIds`, which defaults to the empty list rather than absent. -/
theorem fetchPDBInfo_field_defaults (net : String → JsonOutcome EntryPayload)
    (pdbId : String) (data : EntryPayload)
    (h : net (entryUrl (normalizePdbId pdbId)) = .resp true (some data)) :
    ∃ r, (fetchPDBInfo net pdbId).fst = some r ∧
      r.id = normalizePdbId pdbId ∧
      (data.struct.bind StructField.title = none → r.title = "Unknown") ∧
      (data.struct.bind StructField.pdbx_descriptor = none → r.description = none) ∧
      ((data.exptl.bind List.head?).bind ExptlEntry.method = none →
        r.method = none ∧ r.experimentalTechnique = none) ∧
      ((data.rcsb_entry_info.bind EntryInfoField.resolution_combined).bind
          List.head? = none → r.resolution = none) ∧
      (data.rcsb_accession_info.bind AccessionInfo.deposit_date = none →
        r.depositionDate = none) ∧
      (data.rcsb_accession_info.bind AccessionInfo.initial_release_date = none →
        r.releaseDate = none) ∧
      r.chainIds = some ((data.rcsb_entry_container_identifiers.bind
        ContainerIds.polymer_entity_ids).getD []) := by
  refine ⟨mkPDBInfo (normalizePdbId pdbId) data, ?_, rfl, ?_, ?_, ?_, ?_, ?_, ?_, rfl⟩
  · simp only [fetchPDBInfo]
    rw [h]
  · intro hm
    simp [mkPDBInfo, jsOrStr, hm]
  · intro hm
    simp [mkPDBInfo, jsOrUndefStr, hm]
  · intro hm
    exact ⟨by simp [mkPDBInfo, jsOrUndefStr, hm], by simp [mkPDBInfo, jsOrUndefStr, hm]⟩
  · intro hm
    simp [mkPDBInfo, jsOrUndefStr, hm]
  · intro hm
    simp [mkPDBInfo, jsOrUndefStr, hm]
  · intro hm
    simp [mkPDBInfo, jsOrUndefStr, hm]

/-- Witness for claim C3: a concrete success response whose payload misses
every field still yields a record, with the documented fallbacks. -/
theorem fetchPDBInfo_field_defaults_witness :
    ∃ r, (fetchPDBInfo entryNetEmpty "1abc").fst = some r ∧
      r.title = "Unknown" ∧ r.method = none ∧ r.chainIds = some [] := by
  obtain ⟨r, hr, -, ht, -, hm, -, -, -, hc⟩ :=
    fetchPDBInfo_field_defaults entryNetEmpty "1abc" emptyEntryPayload rfl
  exact ⟨r, hr, ht rfl, (hm rfl).1, hc.trans rfl⟩

/-- Counterexample to claim C3 as stated: with
`rcsb_entry_container_identifiers` missing from the payload, the returned
`chainIds` is the present empty list, not absent as the claim prescribes for
every non-title field. -/
theorem fetchPDBInfo_chainIds_cex :
    ((fetchPDBInfo entryNetEmpty "1abc").fst).map PDBInfo.chainIds =
        some (some []) ∧
      emptyEntryPayload.rcsb_entry_container_identifiers = none := by
  exact ⟨rfl, rfl⟩

/-- Claim C4 (amended): `findBestMatchPDB` returns absent on an empty search
result; otherwise it extracts from the top identifier the leftmost
4-character substring matching a digit 1–9 followed by three characters in
`[A-Z0-9]` (upper case only — lower-case alphanumerics do not match),
returns absent when there is none, and otherwise returns a value whose
structure code is exactly that (already upper-case) substring, enriched with
`fetchPDBInfo` on it. -/
theorem findBestMatchPDB_extraction (netS : SearchQuery → JsonOutcome SearchPayload)
    (netE : String → JsonOutcome EntryPayload) (s : String) :
    ((searchPDBBySequence netS s relaxedSearchOptions).fst = [] →
      (findBestMatchPDB netS netE s).fst = none) ∧
    (∀ best rest, (searchPDBBySequence netS s relaxedSearchOptions).fst = best :: rest →
      (findCode best.identifier.data = none →
        (findBestMatchPDB netS netE s).fst = none) ∧
      (∀ code, findCode best.identifier.data = some code →
        ∃ bm, (findBestMatchPDB netS netE s).fst = some bm ∧
          bm.pdbId = String.mk code ∧
          bm.entityId = best.identifier ∧
          matchesPDBPattern bm.pdbId = true ∧
          bm.info = (fetchPDBInfo netE (String.mk code)).fst)) := by
  rcases hS : searchPDBBySequence netS s relaxedSearchOptions with ⟨results, t1⟩
  constructor
  · intro hres
    have hnil : results = [] := hres
    subst hnil
    simp only [findBestMatchPDB, hS]
  · intro best rest hres
    have hcons : results = best :: rest := hres
    subst hcons
    constructor
    · intro hfc
      simp only [findBestMatchPDB, hS, hfc]
    · intro code hfc
      rcases hI : fetchPDBInfo netE (String.mk code) with ⟨info, t2⟩
      refine ⟨{ pdbId := String.mk code, entityId := best.identifier
              , score := jsOrNum best.score 0, info := info }, ?_, rfl, rfl, ?_, ?_⟩
      · simp only [findBestMatchPDB, hS, hfc, hI]
      · exact findCode_matches best.identifier.data code hfc
      · rfl

/-- Witness for claim C4: a top hit whose identifier is `"1ABC_1"` yields a
best match with structure code `"1ABC"`. -/
theorem findBestMatchPDB_extraction_witness :
    ∃ bm, (findBestMatchPDB searchNetUpper entryNetEmpty "SEQ").fst = some bm ∧
      bm.pdbId = "1ABC" := by
  obtain ⟨-, h2⟩ := findBestMatchPDB_extraction searchNetUpper entryNetEmpty "SEQ"
  obtain ⟨-, h4⟩ := h2 { identifier := "1ABC_1", score := some 7 } [] (by decide)
  obtain ⟨bm, hbm, hp, -, -, -⟩ := h4 ['1', 'A', 'B', 'C'] (by decide)
  exact ⟨bm, hbm, by rw [hp]⟩

/-- Counterexample to claim C4 as stated: the identifier `"1abc_1"` contains
the 4-character alphanumeric substring `"1abc"` (digit 1–9 followed by three
alphanumerics), yet the function returns absent because its pattern only
matches upper-case characters. -/
theorem findBestMatchPDB_lowercase_cex :
    (findBestMatchPDB searchNetLower entryNetEmpty "SEQ").fst = none ∧
      specFindAlnumCode ("1abc_1".data) = some ("1abc".data) := by
  exact ⟨by decide, by decide⟩

/-- Claim C6 (amended): `searchPDBBySequence` places in the request body the
sequence with its newline-terminated FASTA header lines and all whitespace
removed (a trailing header line with no terminating newline is not
stripped), and always returns a list: the empty list on transport error,
non-success status, unparseable payload or missing result set, and the
upstream result list unmodified on success. -/
theorem searchPDBBySequence_body_and_failures
    (net : SearchQuery → JsonOutcome SearchPayload) (s : String)
    (opts : SearchOptions) :
    (searchPDBBySequence net s opts).snd =
      [PDBRequest.searchReq (mkSearchQuery s opts)] ∧
    (mkSearchQuery s opts).value = cleanSequence s ∧
    (net (mkSearchQuery s opts) = .err → (searchPDBBySequence net s opts).fst = []) ∧
    (∀ p, net (mkSearchQuery s opts) = .resp false p →
      (searchPDBBySequence net s opts).fst = []) ∧
    (net (mkSearchQuery s opts) = .resp true none →
      (searchPDBBySequence net s opts).fst = []) ∧
    (∀ data l, net (mkSearchQuery s opts) = .resp true (some data) →
      data.result_set = some l → (searchPDBBySequence net s opts).fst = l) ∧
    (∀ data, net (mkSearchQuery s opts) = .resp true (some data) →
      data.result_set = none → (searchPDBBySequence net s opts).fst = []) := by
  refine ⟨rfl, rfl, ?_, ?_, ?_, ?_, ?_⟩
  · intro h
    simp only [searchPDBBySequence]
    rw [h]
  · intro p h
    simp only [searchPDBBySequence]
    rw [h]
  · intro h
    simp only [searchPDBBySequence]
    rw [h]
  · intro data l h hl
    simp only [searchPDBBySequence]
    rw [h]
    simp [hl]
  · intro data h hl
    simp only [searchPDBBySequence]
    rw [h]
    simp [hl]

/-- Witness for claim C6: a concrete success response whose result set holds
one hit is relayed unmodified. -/
theorem searchPDBBySequence_body_and_failures_witness :
    (searchPDBBySequence searchNetOneHit "SEQ" defaultSearchOptions).fst =
      [{ identifier := "2XYZ_1", score := some 9 }] := by
  obtain ⟨-, -, -, -, -, h6, -⟩ :=
    searchPDBBySequence_body_and_failures searchNetOneHit "SEQ" defaultSearchOptions
  exact h6 _ _ rfl rfl

/-- Counterexample to claim C6 as stated: for the input `"AA\n>x"`, whose
final header line has no terminating newline, the request body value keeps
the header text (`"AA>x"`), while stripping all header lines as the claim
prescribes would give `"AA"`. -/
theorem searchPDBBySequence_header_cex :
    (mkSearchQuery "AA\n>x" defaultSearchOptions).value = "AA>x" ∧
      specCleanSequence "AA\n>x" = "AA" ∧ ("AA>x" : String) ≠ "AA" := by
  exact ⟨by decide, by decide, by decide⟩

/-- Claim C8: every structure-id-keyed request of the PDB client —
`fetchPDBStructure`, `fetchPDBInfo`, `fetchPDBChainSequence`, and the
`fetchPDBInfo` call inside `findBestMatchPDB` — builds its URL from the
uppercased-and-trimmed identifier, never from the raw input. -/
theorem pdb_requests_use_normalized_ids :
    (∀ (net : String → TextOutcome) (pdbId : String),
      (fetchPDBStructure net pdbId).snd =
        [PDBRequest.fileReq (pdbFileUrl (normalizePdbId pdbId))]) ∧
    (∀ (net : String → JsonOutcome EntryPayload) (pdbId : String),
      (fetchPDBInfo net pdbId).snd =
        [PDBRequest.entryReq (entryUrl (normalizePdbId pdbId))]) ∧
    (∀ (net : String → JsonOutcome ChainSeqPayload) (pdbId : String)
        (chainId : Option String),
      (fetchPDBChainSequence net pdbId chainId).snd =
        [PDBRequest.chainReq (chainSeqUrl (normalizePdbId pdbId) (jsOrStr chainId "1"))]) ∧
    (∀ (netS : SearchQuery → JsonOutcome SearchPayload)
        (netE : String → JsonOutcome EntryPayload) (s u : String),
      PDBRequest.entryReq u ∈ (findBestMatchPDB netS netE s).snd →
        ∃ c, u = entryUrl (normalizePdbId c)) ∧
    (∀ pdbId : String, normalizePdbId pdbId = jsTrim (jsToUpper pdbId)) := by
  refine ⟨fun net pdbId => rfl, fun net pdbId => rfl,
    fun net pdbId chainId => rfl, ?_, fun pdbId => rfl⟩
  intro netS netE s u hu
  rcases hS : searchPDBBySequence netS s relaxedSearchOptions with ⟨results, t1⟩
  have ht1 : t1 = [PDBRequest.searchReq (mkSearchQuery s relaxedSearchOptions)] :=
    (congrArg Prod.snd hS).symm
  simp only [findBestMatchPDB, hS] at hu
  cases results with
  | nil =>
    rw [ht1] at hu
    simp at hu
  | cons best rest =>
    cases hfc : findCode best.identifier.data with
    | none =>
      simp only [hfc] at hu
      rw [ht1] at hu
      simp at hu
    | some code =>
      simp only [hfc] at hu
      rcases hI : fetchPDBInfo netE (String.mk code) with ⟨info, t2⟩
      have ht2 : t2 = [PDBRequest.entryReq (entryUrl (normalizePdbId (String.mk code)))] :=
        (congrArg Prod.snd hI).symm
      simp only [hI] at hu
      rw [ht1, ht2] at hu
      simp at hu
      exact ⟨String.mk code, hu⟩

/-- Witness for claim C8: in a concrete run of `findBestMatchPDB` the entry
request URL is built from a normalized structure code. -/
theorem pdb_requests_use_normalized_ids_witness :
    ∃ c, entryUrl "1ABC" = entryUrl (normalizePdbId c) := by
  obtain ⟨-, -, -, h4, -⟩ := pdb_requests_use_normalized_ids
  exact h4 searchNetUpper entryNetEmpty "SEQ" (entryUrl "1ABC") (by decide)

/-- Claim C9: whenever `fetchPubChemProperties` is absent,
`fetchCompletePubChemRecord` returns absent without ever issuing a
description request, and every successful record leaves `synonyms` unset. -/
theorem fetchCompletePubChemRecord_shortcircuit
    (netCid : String → JsonOutcome CidPayload)
    (netProps : String → JsonOutcome PropsPayload)
    (netDesc : String → JsonOutcome DescPayload) (smiles : String) :
    (∀ t, fetchPubChemProperties netCid netProps smiles = (none, t) →
      fetchCompletePubChemRecord netCid netProps netDesc smiles = (none, t) ∧
      ∀ u, PCRequest.descLookup u ∉ t) ∧
    (∀ r t, fetchCompletePubChemRecord netCid netProps netDesc smiles = (some r, t) →
      r.synonyms = none) := by
  constructor
  · intro t h
    constructor
    · simp only [fetchCompletePubChemRecord, h]
    · intro u
      have hnd := fetchPubChemProperties_trace_no_desc netCid netProps smiles u
      rw [h] at hnd
      exact hnd
  · intro r t h
    rcases hP : fetchPubChemProperties netCid netProps smiles with ⟨p0, t0⟩
    cases p0 with
    | none =>
      simp only [fetchCompletePubChemRecord, hP] at h
      simp at h
    | some props =>
      rcases hD : fetchPubChemDescription netDesc props.cid with ⟨desc, t2⟩
      simp only [fetchCompletePubChemRecord, hP, hD] at h
      have hfst : some ({ properties := props, description := jsOrUndefStr desc
                        , synonyms := none } : PubChemRecord) = some r :=
        congrArg Prod.fst h
      cases hfst
      rfl

/-- Witness for claim C9: with a failing CID lookup the complete-record fetch
is absent and the trace holds no description request. -/
theorem fetchCompletePubChemRecord_shortcircuit_witness :
    fetchCompletePubChemRecord cidNetErr propsNetFull descNetHello "CCO" =
      (none, [PCRequest.cidLookup (cidUrl "CCO")]) ∧
    (∀ u, PCRequest.descLookup u ∉ [PCRequest.cidLookup (cidUrl "CCO")]) := by
  obtain ⟨h1, -⟩ :=
    fetchCompletePubChemRecord_shortcircuit cidNetErr propsNetFull descNetHello "CCO"
  have h := h1 [PCRequest.cidLookup (cidUrl "CCO")] rfl
  exact ⟨h.1, h.2⟩

end DeepDock
